import Mathlib

/-!
Verification of the release-publishing script `scripts/create_release.py`.

The script reads release metadata from six environment variables, builds a
fixed-shape JSON payload, POSTs it to a fixed endpoint, and maps the HTTP
outcome to an exit code.  We embed the script shallowly: environment access
becomes an explicit `Env` record of `Option String` fields, the clock becomes
an explicit stream `Nat → Tm` together with a count of reads, and the network
becomes a function from the request to an abstract outcome.  Python exceptions
(`KeyError`, `ValueError`, `urllib.error.HTTPError`, transport-level
`URLError`) are modelled explicitly; an uncaught exception terminates the
interpreter with exit code 1.
-/

/-- Characters treated as whitespace by Python `str.strip` / `int()`
(ASCII fragment, which covers the inputs of interest). -/
def isPySpace (c : Char) : Bool :=
  c.toNat = 32 || c.toNat = 9 || c.toNat = 10 || c.toNat = 11 || c.toNat = 12 || c.toNat = 13

/-- Decimal digit test on the character code, `'0'..'9'`. -/
def isDig (c : Char) : Bool := 48 ≤ c.toNat && c.toNat ≤ 57

/-- Continuation of Python's integer-literal body: after an initial digit,
a sequence of digits where a single underscore may appear only between
two digits (`int("1_000")` is legal, `int("1__0")`, `int("1_")` are not). -/
def pyDigitsRest : List Char → Bool
  | [] => true
  | ['_'] => false
  | '_' :: d :: rest => isDig d && pyDigitsRest rest
  | c :: rest => isDig c && pyDigitsRest rest

/-- A valid Python integer-literal digit body: at least one digit, then
`pyDigitsRest`. -/
def pyDigitsValid : List Char → Bool
  | [] => false
  | c :: rest => isDig c && pyDigitsRest rest

/-- Numeric value of a digit body, skipping underscore separators. -/
def digitsToNat (acc : Nat) : List Char → Nat
  | [] => acc
  | c :: rest =>
    if c = '_' then digitsToNat acc rest
    else digitsToNat (acc * 10 + (c.toNat - 48)) rest

/-- Strip leading and trailing Python whitespace from a character list. -/
def pyStrip (l : List Char) : List Char :=
  ((l.dropWhile isPySpace).reverse.dropWhile isPySpace).reverse

/-- Python `int(s)` for a string argument (ASCII model): strip surrounding
whitespace, accept one optional `+`/`-` sign, then a digit body with
optional single underscores between digits.  Returns `none` where Python
raises `ValueError`. -/
def pyInt (s : String) : Option Int :=
  match pyStrip s.toList with
  | '+' :: rest => if pyDigitsValid rest then some (digitsToNat 0 rest) else none
  | '-' :: rest => if pyDigitsValid rest then some (-(digitsToNat 0 rest : Int)) else none
  | rest => if pyDigitsValid rest then some (digitsToNat 0 rest) else none

/-- Digit character for a value `0 ≤ n < 10`. -/
def digitChar (n : Nat) : Char := Char.ofNat (48 + n)

/-- Decimal digits of `n`, most significant first, with explicit fuel
(`fuel > n` suffices). -/
def natDigsAux (fuel n : Nat) : List Char :=
  match fuel with
  | 0 => []
  | fuel + 1 =>
    if n < 10 then [digitChar n]
    else natDigsAux fuel (n / 10) ++ [digitChar (n % 10)]

/-- Decimal digits of `n`, most significant first. -/
def natChars (n : Nat) : List Char := natDigsAux (n + 1) n

/-- Decimal representation of a natural number, as `str` prints it. -/
def natStr (n : Nat) : String := ⟨natChars n⟩

/-- Decimal representation of an integer, as Python `str` prints it. -/
def intStr : Int → String
  | .ofNat n => natStr n
  | .negSucc n => "-" ++ natStr (n + 1)

/-- Does `l` start with `pat`? -/
def startsList : List Char → List Char → Bool
  | [], _ => true
  | _ :: _, [] => false
  | p :: ps, c :: cs => p = c && startsList ps cs

/-- Python substring containment `pat in l` over character lists. -/
def hasSub (pat : List Char) : List Char → Bool
  | [] => pat.isEmpty
  | c :: rest => startsList pat (c :: rest) || hasSub pat rest

/-- Channel classification, line 12 of the script:
`"beta" if "beta" in version else "stable"`. -/
def channel (version : String) : String :=
  if hasSub "beta".toList version.toList then "beta" else "stable"

/-- Download URL template, line 24 of the script. -/
def downloadUrl (repo version : String) : String :=
  "https://github.com/" ++ repo ++ "/releases/download/v" ++ version ++
    "/TheQuickFox-" ++ version ++ ".zip"

/-- A UTC wall-clock reading, the fields `datetime.utcnow()` exposes to the
format directives `%Y %m %d %H %M %S`. -/
structure Tm where
  year : Nat
  month : Nat
  day : Nat
  hour : Nat
  minute : Nat
  second : Nat
deriving DecidableEq

/-- Left-pad the decimal digits of `n` with zeros to width `w`. -/
def padChars (w n : Nat) : List Char :=
  List.replicate (w - (natChars n).length) '0' ++ natChars n

/-- Zero-padded decimal string of width `w` (for `n < 10 ^ w`). -/
def pad (w n : Nat) : String := ⟨padChars w n⟩

/-- The script's timestamp format, line 29:
`strftime("%Y-%m-%dT%H:%M:%SZ")` applied to a clock reading. -/
def strftimeISO (t : Tm) : String :=
  pad 4 t.year ++ "-" ++ pad 2 t.month ++ "-" ++ pad 2 t.day ++ "T" ++
    pad 2 t.hour ++ ":" ++ pad 2 t.minute ++ ":" ++ pad 2 t.second ++ "Z"

/-- JSON values occurring in the payload. -/
inductive JVal where
  | str : String → JVal
  | int : Int → JVal
  | bool : Bool → JVal
deriving DecidableEq

/-- Hexadecimal digit character (lowercase), as `json.dumps` emits in
`\uXXXX` escapes. -/
def hexDigit (n : Nat) : Char :=
  if n < 10 then Char.ofNat (48 + n) else Char.ofNat (87 + n)

/-- Four-digit lowercase hexadecimal code. -/
def hex4 (n : Nat) : List Char :=
  [hexDigit (n / 4096 % 16), hexDigit (n / 256 % 16), hexDigit (n / 16 % 16), hexDigit (n % 16)]

/-- Escaping of one character by `json.dumps` with its default
`ensure_ascii=True`: two-character escapes for backslash, quote and the
common control characters, `\uXXXX` (with surrogate pairs above the BMP)
for other control and all non-ASCII characters. -/
def escapeChar (c : Char) : List Char :=
  if c = '\\' then ['\\', '\\']
  else if c = '"' then ['\\', '"']
  else if c.toNat = 8 then ['\\', 'b']
  else if c.toNat = 9 then ['\\', 't']
  else if c.toNat = 10 then ['\\', 'n']
  else if c.toNat = 12 then ['\\', 'f']
  else if c.toNat = 13 then ['\\', 'r']
  else if c.toNat < 32 || 126 < c.toNat then
    if c.toNat < 65536 then '\\' :: 'u' :: hex4 c.toNat
    else
      ('\\' :: 'u' :: hex4 (55296 + (c.toNat - 65536) / 1024)) ++
        ('\\' :: 'u' :: hex4 (56320 + (c.toNat - 65536) % 1024))
  else [c]

/-- A JSON string literal as `json.dumps` renders it. -/
def jStr (s : String) : String := ⟨'"' :: (s.toList.map escapeChar).flatten ++ ['"']⟩

/-- Rendering of one JSON value as `json.dumps` renders it. -/
def jValStr : JVal → String
  | .str s => jStr s
  | .int n => intStr n
  | .bool b => if b then "true" else "false"

/-- Serialization of an object with the given fields in the given order,
with `json.dumps` default separators. -/
def pyJsonDumps (fields : List (String × JVal)) : String :=
  "\x7b" ++ String.intercalate ", " (fields.map fun p => jStr p.1 ++ ": " ++ jValStr p.2) ++ "\x7d"

/-- UTF-8 encoding of one character. -/
def utf8Char (c : Char) : List Nat :=
  let n := c.toNat
  if n < 128 then [n]
  else if n < 2048 then [192 + n / 64, 128 + n % 64]
  else if n < 65536 then [224 + n / 4096, 128 + n / 64 % 64, 128 + n % 64]
  else [240 + n / 262144, 128 + n / 4096 % 64, 128 + n / 64 % 64, 128 + n % 64]

/-- UTF-8 encoding of a string, the bytes `str.encode("utf-8")` yields. -/
def encodeUTF8 (s : String) : List Nat := (s.toList.map utf8Char).flatten

/-- The process environment as the script sees it: the six variables it
reads, each possibly unset. -/
structure Env where
  version : Option String
  release_notes : Option String
  github_repository : Option String
  sparkle_signature : Option String
  file_size : Option String
  internal_api_token : Option String
deriving DecidableEq

/-- Python exceptions the script can raise or meet: `KeyError` from
`os.environ[...]`, `ValueError` from `int(...)`, and `urllib.error.URLError`
for transport-level failures.  (`HTTPError` is caught by the script and never
escapes, so it needs no constructor here.) -/
inductive PyError where
  | keyError : String → PyError
  | valueError : String → PyError
  | urlError : String → PyError
deriving DecidableEq

/-- The spec's `ConfigError` taxonomy class: a required variable missing or
failing to parse, i.e. `KeyError` or `ValueError`. -/
def isConfigError : PyError → Bool
  | .keyError _ => true
  | .valueError _ => true
  | .urlError _ => false

/-- The resolved inputs, lines 11-17 of the script. -/
structure Config where
  version : String
  release_notes : String
  github_repo : String
  signature : String
  file_size : Int
  api_token : String
deriving DecidableEq

/-- Input resolution, lines 11-17: required variables raise `KeyError` when
absent, `FILE_SIZE` additionally raises `ValueError` when `int()` rejects it,
optional variables take their defaults; lookups happen in source order. -/
def resolveConfig (env : Env) : Except PyError Config :=
  match env.version with
  | none => .error (.keyError "VERSION")
  | some version =>
    match env.sparkle_signature with
    | none => .error (.keyError "SPARKLE_SIGNATURE")
    | some signature =>
      match env.file_size with
      | none => .error (.keyError "FILE_SIZE")
      | some fsStr =>
        match pyInt fsStr with
        | none => .error (.valueError fsStr)
        | some file_size =>
          match env.internal_api_token with
          | none => .error (.keyError "INTERNAL_API_TOKEN")
          | some api_token =>
            .ok { version := version,
                  release_notes := env.release_notes.getD "",
                  github_repo := env.github_repository.getD "foxwise-ai/TheQuickFox",
                  signature := signature,
                  file_size := file_size,
                  api_token := api_token }

/-- The payload dictionary, lines 19-30, in insertion order. -/
def payloadFields (cfg : Config) (now : Tm) : List (String × JVal) :=
  [("version", .str cfg.version),
   ("build_number", .str cfg.version),
   ("channel", .str (channel cfg.version)),
   ("release_notes", .str cfg.release_notes),
   ("download_url", .str (downloadUrl cfg.github_repo cfg.version)),
   ("signature", .str cfg.signature),
   ("file_size", .int cfg.file_size),
   ("minimum_os_version", .str "13.0"),
   ("is_critical", .bool false),
   ("published_at", .str (strftimeISO now))]

/-- An outbound HTTP request as `urllib.request.Request` is constructed,
lines 32-41.  The body is kept as the serialized string; its wire bytes are
`encodeUTF8` of it. -/
structure HttpRequest where
  url : String
  data : String
  headers : List (String × String)
  method : String
deriving DecidableEq

/-- Request construction, lines 32-41. -/
def buildRequest (cfg : Config) (now : Tm) : HttpRequest :=
  { url := "https://api.thequickfox.ai/api/v1/internal/releases",
    data := pyJsonDumps (payloadFields cfg now),
    headers := [("Authorization", "Bearer " ++ cfg.api_token),
                ("Content-Type", "application/json")],
    method := "POST" }

/-- What the network does with a request: either some server answer (any
status code, with a body) or a transport-level failure (connection, TLS or
DNS error) with no response at all. -/
inductive NetResult where
  | answer : Nat → String → NetResult
  | failure : String → NetResult
deriving DecidableEq

/-- What `urlopen` delivers to the caller: a returned response, a raised
`HTTPError` (which still carries status and body), or a raised transport
error. -/
inductive HttpOutcome where
  | response : Nat → String → HttpOutcome
  | httpError : Nat → String → HttpOutcome
  | transportError : String → HttpOutcome
deriving DecidableEq

/-- Semantics of `urllib.request.urlopen`: a 2xx answer is returned as a
response object; any other status is raised as `HTTPError` by the default
`HTTPErrorProcessor`; a transport failure is raised as `URLError`. -/
def pyUrlopen (net : HttpRequest → NetResult) (req : HttpRequest) : HttpOutcome :=
  match net req with
  | .answer s b => if 200 ≤ s && s < 300 then .response s b else .httpError s b
  | .failure m => .transportError m

/-- How the process ended: fell off `main` (exit 0), called `sys.exit`, or
died of an uncaught exception (the interpreter prints a traceback to stderr
and exits 1). -/
inductive Termination where
  | normal : Termination
  | sysExit : Nat → Termination
  | uncaught : PyError → Termination
deriving DecidableEq

/-- The process exit code each termination produces. -/
def Termination.exitCode : Termination → Nat
  | .normal => 0
  | .sysExit c => c
  | .uncaught _ => 1

/-- Observable trace of one run: lines printed to standard output, requests
handed to the network, number of clock reads, and how the process ended. -/
structure RunResult where
  stdout : List String
  requests : List HttpRequest
  clockReads : Nat
  term : Termination
deriving DecidableEq

/-- The script's `print(f"HTTP Status: {status}")` line. -/
def statusLine (s : Nat) : String := "HTTP Status: " ++ natStr s

/-- The script's `print(f"Response: {body}")` line. -/
def responseLine (b : String) : String := "Response: " ++ b

/-- The script's failure marker line. -/
def failLine : String := "❌ Failed to create release record"

/-- The script's success marker line. -/
def okLine : String := "✅ Release record created successfully"

/-- One run of `main`, lines 10-59: resolve inputs (a failure there is an
uncaught exception before any request exists), read the clock once while
building the payload, issue the single request, then print and map the
outcome to a termination.  `clock i` is the value the `i`-th clock read
would return; `net` is the network's behaviour. -/
def run (env : Env) (clock : Nat → Tm) (net : HttpRequest → NetResult) : RunResult :=
  match resolveConfig env with
  | .error e => { stdout := [], requests := [], clockReads := 0, term := .uncaught e }
  | .ok cfg =>
    let req := buildRequest cfg (clock 0)
    match pyUrlopen net req with
    | .response status body =>
      if status ≠ 201 then
        { stdout := [statusLine status, responseLine body, failLine],
          requests := [req], clockReads := 1, term := .sysExit 1 }
      else
        { stdout := [statusLine status, responseLine body, okLine],
          requests := [req], clockReads := 1, term := .normal }
    | .httpError code body =>
      { stdout := [statusLine code, responseLine body, failLine],
        requests := [req], clockReads := 1, term := .sysExit 1 }
    | .transportError m =>
      { stdout := [], requests := [req], clockReads := 1, term := .uncaught (.urlError m) }

/-- The shape `YYYY-MM-DDTHH:MM:SSZ`: six all-digit groups of widths
4, 2, 2, 2, 2, 2 joined by the literal separators `-`, `-`, `T`, `:`, `:`
and a trailing `Z`. -/
def timestampShape (s : String) : Prop :=
  ∃ y mo d h mi se : List Char,
    y.length = 4 ∧ mo.length = 2 ∧ d.length = 2 ∧ h.length = 2 ∧
    mi.length = 2 ∧ se.length = 2 ∧
    (∀ c ∈ y ++ mo ++ d ++ h ++ mi ++ se, isDig c = true) ∧
    s.toList =
      y ++ '-' :: (mo ++ '-' :: (d ++ 'T' :: (h ++ ':' :: (mi ++ ':' :: (se ++ ['Z'])))))

/-- Fixture: an environment with every variable set. -/
def envA : Env :=
  { version := some "1.2.3", release_notes := some "notes",
    github_repository := some "foxwise-ai/TheQuickFox", sparkle_signature := some "sig",
    file_size := some "123", internal_api_token := some "tok" }

/-- Fixture: the configuration `envA` resolves to. -/
def cfgA : Config :=
  { version := "1.2.3", release_notes := "notes", github_repo := "foxwise-ai/TheQuickFox",
    signature := "sig", file_size := 123, api_token := "tok" }

/-- Fixture: an environment with every variable unset. -/
def envNone : Env :=
  { version := none, release_notes := none, github_repository := none,
    sparkle_signature := none, file_size := none, internal_api_token := none }

/-- Fixture: an environment whose `FILE_SIZE` is the negative string `-7`. -/
def envNeg : Env :=
  { version := some "1.2.3", release_notes := none, github_repository := none,
    sparkle_signature := some "sig", file_size := some "-7",
    internal_api_token := some "tok" }

/-- Fixture: the configuration `envNeg` resolves to. -/
def cfgNeg : Config :=
  { version := "1.2.3", release_notes := "", github_repo := "foxwise-ai/TheQuickFox",
    signature := "sig", file_size := -7, api_token := "tok" }

/-- Fixture: a constant clock. -/
def clockA : Nat → Tm := fun _ => { year := 2024, month := 5, day := 3,
                                    hour := 12, minute := 30, second := 45 }

/-- Fixture: a network that answers 201 to everything. -/
def netOk : HttpRequest → NetResult := fun _ => .answer 201 "created"

/-- Fixture: a network that answers 500 to everything. -/
def net500 : HttpRequest → NetResult := fun _ => .answer 500 "oops"

/-- Fixture: a network whose transport always fails. -/
def netDown : HttpRequest → NetResult := fun _ => .failure "connection refused"

/-- A list starts with `pat` exactly when it is `pat` followed by a tail. -/
theorem startsList_iff (pat : List Char) : ∀ l : List Char,
    startsList pat l = true ↔ ∃ t, l = pat ++ t := by
  induction pat with
  | nil => intro l; simp [startsList]
  | cons p ps ih =>
    intro l
    cases l with
    | nil => simp [startsList]
    | cons c cs =>
      simp only [startsList, Bool.and_eq_true, decide_eq_true_eq, ih, List.cons_append,
        List.cons.injEq]
      constructor
      · rintro ⟨rfl, t, rfl⟩; exact ⟨t, rfl, rfl⟩
      · rintro ⟨t, rfl, rfl⟩; exact ⟨rfl, t, rfl⟩

/-- Substring containment on lists is decomposition into prefix, pattern,
suffix. -/
theorem hasSub_iff (pat : List Char) : ∀ l : List Char,
    hasSub pat l = true ↔ ∃ s t, l = s ++ pat ++ t := by
  intro l
  induction l with
  | nil =>
    simp only [hasSub, List.isEmpty_iff]
    constructor
    · rintro rfl; exact ⟨[], [], rfl⟩
    · rintro ⟨s, t, h⟩
      have hl := congrArg List.length h
      simp only [List.length_append, List.length_nil] at hl
      have : pat.length = 0 := by omega
      exact List.length_eq_zero.mp this
  | cons c rest ih =>
    simp only [hasSub, Bool.or_eq_true, startsList_iff, ih]
    constructor
    · rintro (⟨t, h⟩ | ⟨s, t, rfl⟩)
      · exact ⟨[], t, by simpa using h⟩
      · exact ⟨c :: s, t, by simp⟩
    · rintro ⟨s, t, h⟩
      cases s with
      | nil =>
        left
        exact ⟨t, by simpa using h⟩
      | cons a s' =>
        right
        simp only [List.cons_append, List.cons.injEq] at h
        exact ⟨s', t, h.2⟩

/-- Substring containment at string level. -/
theorem hasSub_string_iff (v : String) :
    hasSub "beta".toList v.toList = true ↔ ∃ pre post : String, v = pre ++ "beta" ++ post := by
  rw [hasSub_iff]
  constructor
  · rintro ⟨s, t, h⟩
    refine ⟨⟨s⟩, ⟨t⟩, ?_⟩
    cases v with
    | mk d =>
      simp only [String.toList] at h
      show String.mk d = String.mk ((s ++ "beta".data) ++ t)
      rw [h]
  · rintro ⟨pre, post, rfl⟩
    refine ⟨pre.data, post.data, ?_⟩
    cases pre with
    | mk p =>
      cases post with
      | mk q =>
        show (String.mk p ++ "beta" ++ String.mk q).data = (p ++ "beta".data) ++ q
        rfl

/-- Every character `natDigsAux` emits is a decimal digit. -/
theorem natDigsAux_digits : ∀ fuel n : Nat, ∀ c ∈ natDigsAux fuel n, isDig c = true := by
  have base : ∀ m, m < 10 → isDig (digitChar m) = true := by decide
  intro fuel
  induction fuel with
  | zero => intro n c hc; simp [natDigsAux] at hc
  | succ fuel ih =>
    intro n c hc
    by_cases h : n < 10
    · simp only [natDigsAux, if_pos h, List.mem_singleton] at hc
      exact hc ▸ base n h
    · simp only [natDigsAux, if_neg h, List.mem_append, List.mem_singleton] at hc
      rcases hc with hc | hc
      · exact ih (n / 10) c hc
      · exact hc ▸ base (n % 10) (Nat.mod_lt n (by omega))

/-- Length bound: with enough fuel, `n < 10 ^ k` prints in at most `k`
digits. -/
theorem natDigsAux_length : ∀ fuel n k : Nat, n < fuel → n < 10 ^ k → 1 ≤ k →
    (natDigsAux fuel n).length ≤ k := by
  intro fuel
  induction fuel with
  | zero => intro n k h; omega
  | succ fuel ih =>
    intro n k hfuel hpow hk
    by_cases h : n < 10
    · simp only [natDigsAux, if_pos h, List.length_singleton]
      omega
    · simp only [natDigsAux, if_neg h, List.length_append, List.length_singleton]
      have hk2 : 2 ≤ k := by
        by_contra hlt
        have hk1 : k = 1 := by omega
        subst hk1
        simp only [pow_one] at hpow
        omega
      have hdivfuel : n / 10 < fuel := by
        have := Nat.div_lt_self (by omega : 0 < n) (by omega : 1 < 10)
        omega
      have hdivpow : n / 10 < 10 ^ (k - 1) := by
        rw [Nat.div_lt_iff_lt_mul (by omega : 0 < 10)]
        have : 10 ^ (k - 1) * 10 = 10 ^ k := by
          rw [← pow_succ]
          congr 1
          omega
        omega
      have := ih (n / 10) (k - 1) hdivfuel hdivpow (by omega)
      omega

/-- With `n < 10 ^ w`, the padded digit block has exactly width `w` and is
all digits. -/
theorem padChars_spec (w n : Nat) (hw : 1 ≤ w) (h : n < 10 ^ w) :
    (padChars w n).length = w ∧ ∀ c ∈ padChars w n, isDig c = true := by
  have hlen : (natChars n).length ≤ w :=
    natDigsAux_length (n + 1) n w (by omega) h hw
  constructor
  · simp only [padChars, List.length_append, List.length_replicate]
    omega
  · intro c hc
    simp only [padChars, List.mem_append, List.mem_replicate] at hc
    rcases hc with ⟨-, rfl⟩ | hc
    · decide
    · exact natDigsAux_digits (n + 1) n c hc

/-- The script's timestamp has the `YYYY-MM-DDTHH:MM:SSZ` shape whenever the
clock fields are in their `strftime` ranges. -/
theorem strftimeISO_shape (t : Tm) (hy : t.year < 10000) (hmo : t.month < 100)
    (hd : t.day < 100) (hh : t.hour < 100) (hmi : t.minute < 100)
    (hs : t.second < 100) :
    timestampShape (strftimeISO t) := by
  obtain ⟨ly, dy⟩ := padChars_spec 4 t.year (by omega) (by omega)
  obtain ⟨lmo, dmo⟩ := padChars_spec 2 t.month (by omega) (by omega)
  obtain ⟨ld, dd⟩ := padChars_spec 2 t.day (by omega) (by omega)
  obtain ⟨lh, dh⟩ := padChars_spec 2 t.hour (by omega) (by omega)
  obtain ⟨lmi, dmi⟩ := padChars_spec 2 t.minute (by omega) (by omega)
  obtain ⟨ls, ds⟩ := padChars_spec 2 t.second (by omega) (by omega)
  refine ⟨padChars 4 t.year, padChars 2 t.month, padChars 2 t.day, padChars 2 t.hour,
    padChars 2 t.minute, padChars 2 t.second, ly, lmo, ld, lh, lmi, ls, ?_, ?_⟩
  · intro c hc
    simp only [List.mem_append] at hc
    rcases hc with ((((hc | hc) | hc) | hc) | hc) | hc
    · exact dy c hc
    · exact dmo c hc
    · exact dd c hc
    · exact dh c hc
    · exact dmi c hc
    · exact ds c hc
  · simp only [strftimeISO, pad, String.toList, String.data_append]
    simp

/-- Inversion of successful input resolution: which environment values the
fields of the configuration came from. -/
theorem resolveConfig_ok_inv {env : Env} {cfg : Config}
    (h : resolveConfig env = .ok cfg) :
    env.version = some cfg.version ∧
    env.sparkle_signature = some cfg.signature ∧
    (∃ s, env.file_size = some s ∧ pyInt s = some cfg.file_size) ∧
    env.internal_api_token = some cfg.api_token ∧
    cfg.release_notes = env.release_notes.getD "" ∧
    cfg.github_repo = env.github_repository.getD "foxwise-ai/TheQuickFox" := by
  unfold resolveConfig at h
  split at h
  · cases h
  next v hv =>
    split at h
    · cases h
    next sg hsig =>
      split at h
      · cases h
      next fs hfs =>
        split at h
        · cases h
        next n hpi =>
          split at h
          · cases h
          next tok htok =>
            injection h with h
            subst h
            exact ⟨hv, hsig, ⟨fs, hfs, hpi⟩, htok, rfl, rfl⟩

/-- Unfolding of a run whose input resolution succeeded. -/
theorem run_eq_ok {env : Env} {cfg : Config} (clock : Nat → Tm)
    (net : HttpRequest → NetResult) (h : resolveConfig env = .ok cfg) :
    run env clock net =
      match pyUrlopen net (buildRequest cfg (clock 0)) with
      | .response status body =>
        if status ≠ 201 then
          { stdout := [statusLine status, responseLine body, failLine],
            requests := [buildRequest cfg (clock 0)], clockReads := 1, term := .sysExit 1 }
        else
          { stdout := [statusLine status, responseLine body, okLine],
            requests := [buildRequest cfg (clock 0)], clockReads := 1, term := .normal }
      | .httpError code body =>
        { stdout := [statusLine code, responseLine body, failLine],
          requests := [buildRequest cfg (clock 0)], clockReads := 1, term := .sysExit 1 }
      | .transportError m =>
        { stdout := [], requests := [buildRequest cfg (clock 0)], clockReads := 1,
          term := .uncaught (.urlError m) } := by
  unfold run
  rw [h]

/-- Unfolding of a run whose input resolution failed. -/
theorem run_eq_error {env : Env} {e : PyError} (clock : Nat → Tm)
    (net : HttpRequest → NetResult) (h : resolveConfig env = .error e) :
    run env clock net =
      { stdout := [], requests := [], clockReads := 0, term := .uncaught e } := by
  unfold run
  rw [h]

/-- C2: for every version string the derived channel equals "beta" exactly
when the literal substring "beta" occurs anywhere in the version
(case-sensitive), and the channel takes no value other than "beta" or
"stable" (hence equals "stable" otherwise); it is a pure function of the
version. -/
theorem channel_beta_iff (v : String) :
    (channel v = "beta" ↔ ∃ pre post : String, v = pre ++ "beta" ++ post) ∧
    (channel v = "beta" ∨ channel v = "stable") := by
  constructor
  · rw [← hasSub_string_iff v]
    unfold channel
    cases h : hasSub "beta".toList v.toList
    · simp [h]
    · simp [h]
  · unfold channel
    cases h : hasSub "beta".toList v.toList
    · simp [h]
    · simp [h]

/-- C6: the build_number field of the payload is always exactly the version
field, for every configuration and every clock reading. -/
theorem build_number_eq_version (cfg : Config) (now : Tm) :
    List.lookup "build_number" (payloadFields cfg now) = some (.str cfg.version) ∧
    List.lookup "version" (payloadFields cfg now) = some (.str cfg.version) :=
  ⟨rfl, rfl⟩

/-- C5: the download_url field of the payload is exactly the template
`https://github.com/{repo}/releases/download/v{version}/TheQuickFox-{version}.zip`
with the resolved GITHUB_REPOSITORY value as repo and the VERSION input as
version, the version substituted identically in both positions. -/
theorem download_url_template (env : Env) (cfg : Config) (now : Tm)
    (h : resolveConfig env = .ok cfg) :
    env.version = some cfg.version ∧
    cfg.github_repo = env.github_repository.getD "foxwise-ai/TheQuickFox" ∧
    List.lookup "download_url" (payloadFields cfg now) =
      some (.str ("https://github.com/" ++ cfg.github_repo ++ "/releases/download/v" ++
        cfg.version ++ "/TheQuickFox-" ++ cfg.version ++ ".zip")) := by
  obtain ⟨hv, -, -, -, -, hgr⟩ := resolveConfig_ok_inv h
  exact ⟨hv, hgr, rfl⟩

/-- Witness for C5 at a concrete environment. -/
theorem download_url_template_witness :
    resolveConfig envA = .ok cfgA ∧
    (envA.version = some cfgA.version ∧
     cfgA.github_repo = envA.github_repository.getD "foxwise-ai/TheQuickFox" ∧
     List.lookup "download_url" (payloadFields cfgA (clockA 0)) =
       some (.str ("https://github.com/" ++ cfgA.github_repo ++ "/releases/download/v" ++
         cfgA.version ++ "/TheQuickFox-" ++ cfgA.version ++ ".zip"))) :=
  ⟨rfl, download_url_template envA cfgA (clockA 0) rfl⟩

/-- C8: when RELEASE_NOTES is unset the release_notes field is the empty
string; when GITHUB_REPOSITORY is unset the repository identifier is exactly
"foxwise-ai/TheQuickFox"; when either is set its value is used unchanged. -/
theorem optional_defaults (env : Env) (cfg : Config)
    (h : resolveConfig env = .ok cfg) :
    (env.release_notes = none → cfg.release_notes = "") ∧
    (∀ s, env.release_notes = some s → cfg.release_notes = s) ∧
    (env.github_repository = none → cfg.github_repo = "foxwise-ai/TheQuickFox") ∧
    (∀ s, env.github_repository = some s → cfg.github_repo = s) := by
  obtain ⟨-, -, -, -, hrn, hgr⟩ := resolveConfig_ok_inv h
  refine ⟨fun hn => ?_, fun s hs => ?_, fun hn => ?_, fun s hs => ?_⟩
  · rw [hrn, hn]; rfl
  · rw [hrn, hs]; rfl
  · rw [hgr, hn]; rfl
  · rw [hgr, hs]; rfl

/-- Witness for C8 at a concrete environment with both optional variables
unset. -/
theorem optional_defaults_witness :
    resolveConfig envNeg = .ok cfgNeg ∧ envNeg.release_notes = none ∧
    envNeg.github_repository = none ∧ cfgNeg.release_notes = "" ∧
    cfgNeg.github_repo = "foxwise-ai/TheQuickFox" :=
  ⟨rfl, rfl, rfl, (optional_defaults envNeg cfgNeg rfl).1 rfl,
    (optional_defaults envNeg cfgNeg rfl).2.2.1 rfl⟩

/-- Evaluation of `pyUrlopen` when the network answers. -/
theorem pyUrlopen_answer (net : HttpRequest → NetResult) (req : HttpRequest)
    (s : Nat) (b : String) (hn : net req = .answer s b) :
    pyUrlopen net req =
      if (200 ≤ s && s < 300) = true then .response s b else .httpError s b := by
  unfold pyUrlopen
  rw [hn]

/-- Evaluation of `pyUrlopen` when the transport fails. -/
theorem pyUrlopen_failure (net : HttpRequest → NetResult) (req : HttpRequest)
    (m : String) (hn : net req = .failure m) :
    pyUrlopen net req = .transportError m := by
  unfold pyUrlopen
  rw [hn]

/-- Every error input resolution produces is a configuration error. -/
theorem resolveConfig_error_config {env : Env} {e : PyError}
    (h : resolveConfig env = .error e) : isConfigError e = true := by
  unfold resolveConfig at h
  repeat' split at h
  all_goals first
    | (injection h with h; subst h; rfl)
    | cases h

/-- C1: for every run receiving an HTTP response (returned normally or
carried by a raised HTTPError), the process exits 0 exactly when the status
is 201; on any other status it prints the status and the response body and
exits 1. -/
theorem exit_code_classifies (env : Env) (cfg : Config) (clock : Nat → Tm)
    (net : HttpRequest → NetResult) (s : Nat) (b : String)
    (hr : resolveConfig env = .ok cfg)
    (hn : net (buildRequest cfg (clock 0)) = .answer s b) :
    ((run env clock net).term.exitCode = 0 ↔ s = 201) ∧
    (s ≠ 201 →
      (run env clock net).term.exitCode = 1 ∧
      statusLine s ∈ (run env clock net).stdout ∧
      responseLine b ∈ (run env clock net).stdout) := by
  rw [run_eq_ok clock net hr, pyUrlopen_answer net _ s b hn]
  by_cases h2 : (200 ≤ s && s < 300) = true
  · rw [if_pos h2]
    by_cases h20 : s = 201
    · subst h20
      simp [Termination.exitCode]
    · simp [Termination.exitCode, h20]
  · rw [if_neg h2]
    simp only [Bool.and_eq_true, decide_eq_true_eq, not_and, not_lt] at h2
    have hs : s ≠ 201 := by
      intro heq
      subst heq
      have := h2 (by omega)
      omega
    simp [Termination.exitCode, hs]

/-- Witness for C1 at a concrete 500 answer. -/
theorem exit_code_classifies_witness :
    resolveConfig envA = .ok cfgA ∧
    net500 (buildRequest cfgA (clockA 0)) = .answer 500 "oops" ∧
    (((run envA clockA net500).term.exitCode = 0 ↔ (500 : Nat) = 201) ∧
     ((500 : Nat) ≠ 201 →
       (run envA clockA net500).term.exitCode = 1 ∧
       statusLine 500 ∈ (run envA clockA net500).stdout ∧
       responseLine "oops" ∈ (run envA clockA net500).stdout)) :=
  ⟨rfl, rfl, exit_code_classifies envA cfgA clockA net500 500 "oops" rfl rfl⟩

/-- C3: with any required variable absent or FILE_SIZE failing integer
parsing, the run dies of an uncaught configuration error (KeyError or
ValueError) with no request ever issued, and the process exit code is 1. -/
theorem config_error_before_network (env : Env) (clock : Nat → Tm)
    (net : HttpRequest → NetResult)
    (h : env.version = none ∨ env.sparkle_signature = none ∨ env.file_size = none ∨
      env.internal_api_token = none ∨ ∃ s, env.file_size = some s ∧ pyInt s = none) :
    ∃ e, resolveConfig env = .error e ∧ isConfigError e = true ∧
      run env clock net =
        { stdout := [], requests := [], clockReads := 0, term := .uncaught e } ∧
      Termination.exitCode (.uncaught e) = 1 := by
  cases hok : resolveConfig env with
  | error e =>
    exact ⟨e, rfl, resolveConfig_error_config hok, run_eq_error clock net hok, rfl⟩
  | ok cfg =>
    exfalso
    obtain ⟨hv, hsig, ⟨fs, hfs, hpi⟩, htok, -, -⟩ := resolveConfig_ok_inv hok
    rcases h with h | h | h | h | ⟨s2, hs1, hs2⟩ <;> simp_all

/-- Witness for C3 at the fully unset environment. -/
theorem config_error_before_network_witness :
    (envNone.version = none ∨ envNone.sparkle_signature = none ∨
      envNone.file_size = none ∨ envNone.internal_api_token = none ∨
      ∃ s, envNone.file_size = some s ∧ pyInt s = none) ∧
    ∃ e, resolveConfig envNone = .error e ∧ isConfigError e = true ∧
      run envNone clockA netOk =
        { stdout := [], requests := [], clockReads := 0, term := .uncaught e } ∧
      Termination.exitCode (.uncaught e) = 1 :=
  ⟨Or.inl rfl, config_error_before_network envNone clockA netOk (Or.inl rfl)⟩

/-- C4: on a transport-level failure no response exists; the run terminates
with exit code 1 through the uncaught URLError (which carries the diagnostic
message), and nothing — in particular no response body — is printed to
standard output. -/
theorem transport_failure_diagnostic (env : Env) (cfg : Config) (clock : Nat → Tm)
    (net : HttpRequest → NetResult) (m : String)
    (hr : resolveConfig env = .ok cfg)
    (hn : net (buildRequest cfg (clock 0)) = .failure m) :
    (run env clock net).term = .uncaught (.urlError m) ∧
    (run env clock net).term.exitCode = 1 ∧
    (run env clock net).stdout = [] := by
  rw [run_eq_ok clock net hr, pyUrlopen_failure net _ m hn]
  exact ⟨rfl, rfl, rfl⟩

/-- Witness for C4 at a concrete failing transport. -/
theorem transport_failure_diagnostic_witness :
    resolveConfig envA = .ok cfgA ∧
    netDown (buildRequest cfgA (clockA 0)) = .failure "connection refused" ∧
    ((run envA clockA netDown).term = .uncaught (.urlError "connection refused") ∧
     (run envA clockA netDown).term.exitCode = 1 ∧
     (run envA clockA netDown).stdout = []) :=
  ⟨rfl, rfl,
    transport_failure_diagnostic envA cfgA clockA netDown "connection refused" rfl rfl⟩

/-- C7: the published_at field is the formatted value of the single clock
reading taken at payload construction — the run reads the clock exactly
once, the one request carries a payload built from that reading, and the
format is `YYYY-MM-DDTHH:MM:SSZ`. -/
theorem published_at_once (env : Env) (cfg : Config) (clock : Nat → Tm)
    (net : HttpRequest → NetResult)
    (hr : resolveConfig env = .ok cfg)
    (hy : (clock 0).year < 10000) (hmo : (clock 0).month < 100)
    (hd : (clock 0).day < 100) (hh : (clock 0).hour < 100)
    (hmi : (clock 0).minute < 100) (hs : (clock 0).second < 100) :
    (run env clock net).clockReads = 1 ∧
    (run env clock net).requests = [buildRequest cfg (clock 0)] ∧
    List.lookup "published_at" (payloadFields cfg (clock 0)) =
      some (.str (strftimeISO (clock 0))) ∧
    timestampShape (strftimeISO (clock 0)) := by
  have hrun : (run env clock net).clockReads = 1 ∧
      (run env clock net).requests = [buildRequest cfg (clock 0)] := by
    rw [run_eq_ok clock net hr]
    cases hpo : pyUrlopen net (buildRequest cfg (clock 0)) with
    | response s b =>
      by_cases h20 : s = 201
      · subst h20
        exact ⟨rfl, rfl⟩
      · simp [h20]
    | httpError s b => exact ⟨rfl, rfl⟩
    | transportError m => exact ⟨rfl, rfl⟩
  exact ⟨hrun.1, hrun.2, rfl, strftimeISO_shape (clock 0) hy hmo hd hh hmi hs⟩

/-- Witness for C7 at a concrete environment and clock. -/
theorem published_at_once_witness :
    resolveConfig envA = .ok cfgA ∧ (clockA 0).year < 10000 ∧
    ((run envA clockA netOk).clockReads = 1 ∧
     (run envA clockA netOk).requests = [buildRequest cfgA (clockA 0)] ∧
     List.lookup "published_at" (payloadFields cfgA (clockA 0)) =
       some (.str (strftimeISO (clockA 0))) ∧
     timestampShape (strftimeISO (clockA 0))) :=
  ⟨rfl, by decide,
    published_at_once envA cfgA clockA netOk rfl (by decide) (by decide) (by decide)
      (by decide) (by decide) (by decide)⟩

/-- C9: FILE_SIZE parsing follows Python `int()` semantics rather than a
strict digit check — surrounding whitespace, a sign, and underscore
separators are accepted even though none of these inputs is a plain digit
string; with `FILE_SIZE="-7"` resolution succeeds, the run issues its
network request, and the transmitted file_size is the negative integer. -/
theorem pyint_lenient_file_size :
    pyInt " 42 " = some 42 ∧ pyInt "-7" = some (-7) ∧ pyInt "+3" = some 3 ∧
    pyInt "1_000" = some 1000 ∧
    " 42 ".toList.all isDig = false ∧ "-7".toList.all isDig = false ∧
    "+3".toList.all isDig = false ∧ "1_000".toList.all isDig = false ∧
    resolveConfig envNeg = .ok cfgNeg ∧
    (run envNeg clockA netOk).requests.length = 1 ∧
    List.lookup "file_size" (payloadFields cfgNeg (clockA 0)) = some (.int (-7)) ∧
    cfgNeg.file_size < 0 := by
  refine ⟨by decide, by decide, by decide, by decide, by decide, by decide, by decide,
    by decide, rfl, rfl, rfl, by decide⟩

/-- C10: payload construction is deterministic — identical resolved inputs
and an identical clock reading give the identical request (URL, method,
headers, serialized body, hence identical UTF-8 body bytes), and the body
serializes exactly the ten fields of the release record, no more and no
fewer. -/
theorem payload_deterministic (cfg cfg' : Config) (now now' : Tm)
    (h1 : cfg = cfg') (h2 : now = now') :
    buildRequest cfg now = buildRequest cfg' now' ∧
    encodeUTF8 (buildRequest cfg now).data = encodeUTF8 (buildRequest cfg' now').data ∧
    (buildRequest cfg now).method = "POST" ∧
    (buildRequest cfg now).url = "https://api.thequickfox.ai/api/v1/internal/releases" ∧
    (buildRequest cfg now).headers =
      [("Authorization", "Bearer " ++ cfg.api_token), ("Content-Type", "application/json")] ∧
    (buildRequest cfg now).data = pyJsonDumps (payloadFields cfg now) ∧
    (payloadFields cfg now).map Prod.fst =
      ["version", "build_number", "channel", "release_notes", "download_url", "signature",
       "file_size", "minimum_os_version", "is_critical", "published_at"] := by
  subst h1
  subst h2
  exact ⟨rfl, rfl, rfl, rfl, rfl, rfl, rfl⟩

/-- Witness for C10 at a concrete configuration and clock reading. -/
theorem payload_deterministic_witness :
    cfgA = cfgA ∧ clockA 0 = clockA 0 ∧
    (buildRequest cfgA (clockA 0) = buildRequest cfgA (clockA 0) ∧
     encodeUTF8 (buildRequest cfgA (clockA 0)).data =
       encodeUTF8 (buildRequest cfgA (clockA 0)).data ∧
     (buildRequest cfgA (clockA 0)).method = "POST" ∧
     (buildRequest cfgA (clockA 0)).url =
       "https://api.thequickfox.ai/api/v1/internal/releases" ∧
     (buildRequest cfgA (clockA 0)).headers =
       [("Authorization", "Bearer " ++ cfgA.api_token),
        ("Content-Type", "application/json")] ∧
     (buildRequest cfgA (clockA 0)).data = pyJsonDumps (payloadFields cfgA (clockA 0)) ∧
     (payloadFields cfgA (clockA 0)).map Prod.fst =
       ["version", "build_number", "channel", "release_notes", "download_url", "signature",
        "file_size", "minimum_os_version", "is_critical", "published_at"]) :=
  ⟨rfl, rfl, payload_deterministic cfgA cfgA (clockA 0) (clockA 0) rfl rfl⟩
